import Mathlib

/-!
# Verification of the Amazon review-scraper core

A shallow embedding, in Lean 4, of the review-extraction and pagination
engine of the `amazon-review-scraper-GUI` repository, together with proofs
settling the specification's claims about it.

The embedding models the Python source (`amazon_scraper_gui.py`,
`amazon_auto_login.py`, `amazon_selectors.py`) value-by-value:

* Python strings are `String` (ASCII semantics; every string the scraper
  inspects with `lower()/upper()/strip()/isalnum()` is treated through the
  ASCII case maps `Char.toLower/Char.toUpper`, which agree with Python on
  the ASCII range the code manipulates);
* Python floats produced by parsing decimal literals are modelled as exact
  rationals `ℚ` (the parsed literals are short decimal strings, and every
  comparison/truncation the code performs is stated on the exact value);
* the Selenium driver is modelled as an oracle: a record of the texts and
  attributes the probed elements would yield, with `Option` encoding a
  locator that raises `NoSuchElementException`;
* Python `try/except: continue` around a single strategy becomes the
  absence of that strategy's value; the catch-all handlers that turn any
  exception into a `False`/empty-list return are modelled by totality of
  the corresponding Lean function together with explicit failure events
  where the source can abort mid-loop.
-/

namespace AmazonScraper

/-! ## String utilities (models of the Python primitives used by the code) -/

/-- Model of Python `str.strip()`: drop leading and trailing whitespace
characters. -/
def pyStrip (s : String) : String :=
  String.mk (((s.data.dropWhile Char.isWhitespace).reverse.dropWhile
    Char.isWhitespace).reverse)

/-- Auxiliary for `normWs`: the Boolean records whether the previous
character was part of a whitespace run already emitted as `' '`. -/
def normWsAux : Bool → List Char → List Char
  | _, [] => []
  | inRun, c :: rest =>
    if c.isWhitespace then
      if inRun then normWsAux true rest else ' ' :: normWsAux true rest
    else c :: normWsAux false rest

/-- Model of Python `re.sub(r'\s+', ' ', s)`: collapse every run of
whitespace characters into a single space. -/
def normWs (s : String) : String :=
  String.mk (normWsAux false s.data)

/-- Model of Python lowercasing `str.lower()` (ASCII range). -/
def lowerS (s : String) : String :=
  String.mk (s.data.map Char.toLower)

/-- Model of Python uppercasing `str.upper()` (ASCII range). -/
def pyUpper (s : String) : String :=
  String.mk (s.data.map Char.toUpper)

/-- `containsList hay needle`: the Python substring test `needle in hay`
on character lists. -/
def containsList (hay needle : List Char) : Bool :=
  match hay with
  | [] => needle.isEmpty
  | _ :: t => needle.isPrefixOf hay || containsList t needle

/-- Python substring test `sub in s` for strings. -/
def containsSub (s sub : String) : Bool :=
  containsList s.data sub.data

/-- Python `s.startswith(p)`. -/
def pyStartsWith (s p : String) : Bool :=
  p.data.isPrefixOf s.data

/-- Model of Python `s[:n]` on strings (first `n` characters). -/
def takeChars (n : Nat) (s : String) : String :=
  String.mk (s.data.take n)

/-- Model of Python `'K' in s.upper()`-style tests: does some character of
`s` uppercase to `c`? -/
def containsUpper (s : String) (c : Char) : Bool :=
  s.data.any (fun d => d.toUpper = c)

/-- `s.replace(c, '')` for a single character: Python's
`str.replace(c, '')` removes every occurrence of `c`. -/
def removeChar (c : Char) (s : String) : String :=
  String.mk (s.data.filter (fun d => d ≠ c))

/-- The normalisation `review_text.replace(',', '').replace(' ', '')`
performed by `_extract_product_reviews_count` (line 352). -/
def stripSeps (s : String) : String :=
  removeChar ' ' (removeChar ',' s)

/-- Numeric value of a list of decimal digit characters. -/
def digitsToNat (ds : List Char) : Nat :=
  ds.foldl (fun a c => a * 10 + (c.toNat - 48)) 0

/-- Split a leading run of decimal digits off a character list. -/
def takeDigits : List Char → List Char × List Char
  | [] => ([], [])
  | c :: rest =>
    if c.isDigit then
      let p := takeDigits rest
      (c :: p.1, p.2)
    else ([], c :: rest)

/-- Model of `re.search(r'(\d+\.?\d*)', s)`: the first match of a decimal
literal, returned as (integer digits, fraction digits).  The regex is
greedy and, since neither `.` nor a digit can satisfy the token that
follows the match in the patterns the code uses, greedy scanning without
backtracking is exact. -/
def scanDecimal : List Char → Option (List Char × List Char)
  | [] => none
  | c :: rest =>
    if c.isDigit then
      let p := takeDigits (c :: rest)
      match p.2 with
      | '.' :: r2 => some (p.1, (takeDigits r2).1)
      | _ => some (p.1, [])
    else scanDecimal rest

/-- Exact rational value of a decimal literal given as integer digits and
fraction digits (`float(match.group(1))` on the matched text; the matched
literals are short, so the Python float is the same decimal value). -/
def decToRat (ip fp : List Char) : ℚ :=
  (digitsToNat ip : ℚ) + (digitsToNat fp : ℚ) / (10 : ℚ) ^ fp.length

/-- First decimal number occurring in a string, as an exact rational. -/
def firstDecimal (s : String) : Option ℚ :=
  (scanDecimal s.data).map (fun p => decToRat p.1 p.2)

/-- Auxiliary for `firstNatRun`. -/
def firstNatRunAux : List Char → Option Nat
  | [] => none
  | c :: rest =>
    if c.isDigit then some (digitsToNat (takeDigits (c :: rest)).1)
    else firstNatRunAux rest

/-- Model of `re.search(r'(\d+)', s)`: the first run of digits, as a
natural number. -/
def firstNatRun (s : String) : Option Nat :=
  firstNatRunAux s.data

/-- Python truthiness of an optional string (`None` and `''` are falsy). -/
def pyTruthy : Option String → Bool
  | none => false
  | some s => !s.isEmpty

/-- Python `a or b` on two optional strings: `a` when truthy, else `b`. -/
def pyOrStr : Option String → Option String → Option String
  | some s, b => if s.isEmpty then b else some s
  | none, b => b

/-! ## Field Extractor: ratings (`_extract_product_rating`, lines 310-339,
and the rating branch of `extract_review_data`, lines 747-771)

Each function receives the ordered list of candidate texts produced by the
selector probes that succeeded (a probe that raises or whose element
yields no text contributes nothing, matching the `except: continue`
pattern). -/

/-- Product-page rating extraction (`_extract_product_rating`): for each
candidate text in selector order, skip it if falsy, take the first decimal
number, and accept only if `1 <= rating_value <= 5` (line 325); otherwise
continue with the next candidate. -/
def extractProductRating : List String → Option ℚ
  | [] => none
  | t :: rest =>
    if t.isEmpty then extractProductRating rest
    else
      match firstDecimal t with
      | some v => if 1 ≤ v ∧ v ≤ 5 then some v else extractProductRating rest
      | none => extractProductRating rest

/-- Review-level rating extraction (the rating loop of
`extract_review_data`, lines 749-767): each candidate is stripped; the
first candidate containing a decimal number yields that number, with no
range check of any kind (`rating = float(match.group(1)); break`). -/
def extractReviewRating : List String → Option ℚ
  | [] => none
  | t0 :: rest =>
    if (pyStrip t0).isEmpty then extractReviewRating rest
    else
      match firstDecimal (pyStrip t0) with
      | some v => some v
      | none => extractReviewRating rest

/-! ## Field Extractor: review counts (`_extract_product_reviews_count`,
lines 341-395) -/

/-- Parse one review-count candidate text, as `_extract_product_reviews_count`
does: if the text is falsy, fail; else remove `','` and `' '`; if the
result contains `K`/`k`, multiply the first decimal number by 1000 and
truncate with `int(...)`; else if it contains `M`/`m`, the same with
1,000,000; else take the first digit run and accept it only if positive.
`int()` truncates toward zero; the value is non-negative, so `Rat.floor`
is exact. -/
def parseReviewCount (s : String) : Option Nat :=
  if s.isEmpty then none
  else
    let t := stripSeps s
    if containsUpper t 'K' then
      match scanDecimal t.data with
      | some p => some (⌊(decToRat p.1 p.2 * 1000 : ℚ)⌋.toNat)
      | none => none
    else if containsUpper t 'M' then
      match scanDecimal t.data with
      | some p => some (⌊(decToRat p.1 p.2 * 1000000 : ℚ)⌋.toNat)
      | none => none
    else
      match firstNatRun t with
      | some n => if 0 < n then some n else none
      | none => none

/-! ## Field Extractor: review title, body, reviewer, date
(`extract_review_data`, lines 743-849) -/

/-- Match a literal character sequence at the front of a list, returning
the remainder. -/
def expectLit : List Char → List Char → Option (List Char)
  | [], l => some l
  | _ :: _, [] => none
  | c :: cs, d :: ds => if c = d then expectLit cs ds else none

/-- Match the anchored regex `^\d+\.?\d*\s+out of \d+ stars\s*` (line 787)
and return the remainder of the title, or `none` if it does not match. -/
def titleRatingRem (l : List Char) : Option (List Char) :=
  let p1 := takeDigits l
  if p1.1.isEmpty then none
  else
    let r2 := match p1.2 with
      | '.' :: r => (takeDigits r).2
      | _ => p1.2
    if (r2.takeWhile Char.isWhitespace).isEmpty then none
    else
      match expectLit "out of ".data (r2.dropWhile Char.isWhitespace) with
      | none => none
      | some r4 =>
        let p2 := takeDigits r4
        if p2.1.isEmpty then none
        else
          match expectLit " stars".data p2.2 with
          | none => none
          | some r6 => some (r6.dropWhile Char.isWhitespace)

/-- `re.sub(r'^\d+\.?\d*\s+out of \d+ stars\s*', '', title)`. -/
def stripTitleRating (s : String) : String :=
  match titleRatingRem s.data with
  | some r => String.mk r
  | none => s

/-- The title loop of `extract_review_data` (lines 774-794): first
candidate with non-empty stripped text wins and has the leading
"x out of 5 stars" prefix removed; otherwise the title is `''`. -/
def extractReviewTitle : List String → String
  | [] => ""
  | t0 :: rest =>
    let t := pyStrip t0
    if t.isEmpty then extractReviewTitle rest else stripTitleRating t

/-- The body-selector loop (lines 808-818): first candidate with non-empty
stripped text wins and is whitespace-collapsed by
`re.sub(r'\s+', ' ', text)`; `''` if none. -/
def firstBodyText : List String → String
  | [] => ""
  | b0 :: rest =>
    let b := pyStrip b0
    if b.isEmpty then firstBodyText rest else normWs b

/-- Python `s.split('\n')` on character lists. -/
def splitOnNl : List Char → List (List Char)
  | [] => [[]]
  | c :: rest =>
    let r := splitOnNl rest
    if c = '\n' then [] :: r
    else
      match r with
      | [] => [[c]]
      | h :: t => (c :: h) :: t

/-- `max(lines, key=len)` over the `'\n'`-split of `s`: the first line of
maximal length (Python's `max` keeps the earliest maximum). -/
def longestLine (s : String) : String :=
  match (splitOnNl s.data).map String.mk with
  | [] => ""
  | l :: ls => ls.foldl (fun best x => if best.length < x.length then x else best) l

/-- The review-body extraction of `extract_review_data` (lines 798-832):
the first non-empty body-selector text, whitespace-collapsed; if every
body selector failed, fall back to the whole element text — stripped,
split into lines, longest line, stripped (lines 821-827).  Note the
fallback path performs no whitespace collapsing. -/
def extractReviewText (bodyTexts : List String) (elemText : String) : String :=
  let t := firstBodyText bodyTexts
  if t.isEmpty then pyStrip (longestLine (pyStrip elemText)) else t

/-- Outcome of the review-id element lookup
`element.find_element('[data-review-id], [id*="review"]')` (line 955):
`failed` models `NoSuchElementException` (line 957's `except`, which
switches to the md5 fingerprint); `found a b` models a successful lookup,
with `a`/`b` the two `get_attribute` results (`none` = Selenium returns
`None` for an absent attribute; an attribute present but empty yields
`some ""`). -/
inductive IdLookup where
  | failed
  | found (dataReviewId : Option String) (idAttr : Option String)
deriving Repr, DecidableEq

/-- The oracle for one review element: the texts the Selenium probes of
`extract_review_data` / `extract_reviews_from_current_page` would yield.
A selector probe that raises contributes nothing to the corresponding
list (or `none` for the single-selector fields). -/
structure ReviewElem where
  ratingTexts : List String
  titleTexts : List String
  bodyTexts : List String
  elemText : String
  reviewerText : Option String
  dateText : Option String
  idSource : IdLookup
deriving Repr, DecidableEq

/-- The review dict built by `extract_review_data` (keys `rating`,
`title`, `text`, `reviewer`, `date`). -/
structure ReviewData where
  rating : Option ℚ
  title : String
  text : String
  reviewer : String
  date : String
deriving Repr, DecidableEq

/-- `extract_review_data(element)` (lines 743-849).  The reviewer defaults
to `'Amazon Customer'` and the date to `''` exactly when their single
selector raises. -/
def extractReviewData (e : ReviewElem) : ReviewData :=
  { rating := extractReviewRating e.ratingTexts
    title := extractReviewTitle e.titleTexts
    text := extractReviewText e.bodyTexts e.elemText
    reviewer := match e.reviewerText with
      | some r => pyStrip r
      | none => "Amazon Customer"
    date := match e.dateText with
      | some d => pyStrip d
      | none => "" }

/-! ## Review Identity & Dedup Tracker
(`extract_reviews_from_current_page`, lines 927-981)

The md5 digest truncated to 16 hex characters is modelled by an arbitrary
function `hash : String → String` applied to the combined fingerprint
input; every theorem below holds for every such function (only its
determinism is used, which is all the source guarantees). -/

/-- Python `str(x)` for the optional rating as used at line 960
(`str(review_data.get('rating', ''))`): `None` prints as `"None"`.  The
exact numeral rendering of the rational is irrelevant to every theorem
below (only determinism of the fingerprint is used). -/
def pyOptRatStr : Option ℚ → String
  | none => "None"
  | some q => toString q

/-- The fingerprint input `f"{title_part}|{rating_part}|{text_part}"`
(lines 959-962): `title[:20] | str(rating) | stripped_text[:100]`. -/
def fingerprintInput (d : ReviewData) : String :=
  takeChars 20 d.title ++ "|" ++ pyOptRatStr d.rating ++ "|" ++
    takeChars 100 (pyStrip d.text)

/-- The review identity (lines 953-963): the native
`data-review-id or id` attribute chain when the id element is found, else
the truncated-hash fingerprint of the extracted content. -/
def reviewIdOf (hash : String → String) (e : ReviewElem) (d : ReviewData) :
    Option String :=
  match e.idSource with
  | IdLookup.failed => some (hash (fingerprintInput d))
  | IdLookup.found a b => pyOrStr a b

/-- One retained review record: the dict appended at line 973
(`review_data` with the `page` key added).  The source does not store the
identity key in the dict; `rid` carries it alongside so the dedup
invariant can be stated. -/
structure ReviewRec where
  data : ReviewData
  page : Nat
  rid : Option String
deriving Repr, DecidableEq

/-- The body of the per-element loop of
`extract_reviews_from_current_page` (lines 941-976), acting on the state
(retained records so far, session-wide seen-identity set — the set is
modelled as a list used only through membership and insertion):
1. skip the element if its stripped text is falsy or shorter than 20
   characters (line 949);
2. compute the identity; `if review_id and review_id in collected: continue`
   (line 966) — note the membership test is skipped for a falsy id;
3. `if review_id: collected.add(review_id)` (line 969); append the record. -/
def processElem (hash : String → String) (pageNum : Nat)
    (st : List ReviewRec × List String) (e : ReviewElem) :
    List ReviewRec × List String :=
  let d := extractReviewData e
  let rt := pyStrip d.text
  if rt.isEmpty ∨ rt.length < 20 then st
  else
    let rid := reviewIdOf hash e d
    if pyTruthy rid = true ∧ st.2.contains (rid.getD "") = true then st
    else
      (st.1 ++ [⟨d, pageNum, rid⟩],
       if pyTruthy rid then rid.getD "" :: st.2 else st.2)

/-- `extract_reviews_from_current_page(driver, page_num, collected_review_ids)`:
fold the element loop over the page's review elements, starting from an
empty per-page result list and the session's seen set; returns the page's
records and the updated seen set. -/
def extractReviewsFromPage (hash : String → String) (elems : List ReviewElem)
    (pageNum : Nat) (seen : List String) : List ReviewRec × List String :=
  elems.foldl (processElem hash pageNum) ([], seen)

/-- A whole extraction session, as driven by `scrape_reviews_for_product` /
`_scrape_reviews_from_pages`: pages (each with its page number) are fed to
the extractor in order, `all_reviews.extend(page_reviews)` accumulates,
and `collected_review_ids` is shared across all pages. -/
def runExtraction (hash : String → String)
    (pages : List (Nat × List ReviewElem)) : List ReviewRec × List String :=
  pages.foldl
    (fun st p =>
      let r := extractReviewsFromPage hash p.2 p.1 st.2
      (st.1 ++ r.1, r.2))
    ([], [])

/-- The identity keys of the retained records that are truthy (the only
ones the source's dedup guard inspects). -/
def truthyIds (recs : List ReviewRec) : List String :=
  (recs.filterMap ReviewRec.rid).filter (fun s => !s.isEmpty)

/-! ## Page Navigator (`click_next_page_button`, lines 875-925) -/

/-- Oracle for one next-page selector probe: whether `find_element`
succeeds, the `is_displayed()`/`is_enabled()` results, and the
`driver.current_url` that would be observed after clicking it. -/
structure NextButton where
  found : Bool
  displayed : Bool
  enabled : Bool
  urlAfter : String
deriving Repr, DecidableEq

/-- Oracle for one `click_next_page_button` call: the pre-click
`driver.current_url` and the probe outcomes for the candidate selectors in
their priority order. -/
structure NavWorld where
  urlBefore : String
  buttons : List NextButton
deriving Repr

/-- Line 891's guard: the probe found a button that is displayed and
enabled. -/
def qualifies (b : NextButton) : Bool :=
  b.found && b.displayed && b.enabled

/-- The selector loop of `click_next_page_button` (lines 888-921): the
first qualifying candidate is scrolled to and clicked, then the pre- and
post-click URLs are compared — `True` iff they differ (lines 910-915); if
no candidate qualifies the loop falls through to `return False`
(line 921).  The whole body sits in a catch-all `try/except` returning
`False` (lines 923-925), so the operation is total. -/
def clickNextGo (urlBefore : String) : List NextButton → Bool
  | [] => false
  | b :: rest =>
    if qualifies b then (if urlBefore ≠ b.urlAfter then true else false)
    else clickNextGo urlBefore rest

/-- `click_next_page_button(driver)`. -/
def clickNextPageButton (w : NavWorld) : Bool :=
  clickNextGo w.urlBefore w.buttons

/-- The first qualifying candidate, if any (specification helper). -/
def firstQualifying : List NextButton → Option NextButton
  | [] => none
  | b :: rest => if qualifies b then some b else firstQualifying rest

/-! ## Scrape Orchestrator (`scrape_reviews_for_product`, lines 1141-1171,
and `_scrape_reviews_from_pages`, lines 1102-1139) -/

/-- Driver oracle for one iteration of the pagination loop:
* `navFail` — `click_next_page_button` returned `False`;
* `navOk detected elems` — navigation succeeded, the page-number detector
  (`get_current_page_number`) reports `detected`, and the page offers
  `elems` as review elements;
* `excRaised` — the iteration raises (e.g. the driver died), which the
  catch-all handler of `scrape_reviews_for_product` (lines 1169-1171)
  turns into returning the accumulated list. -/
inductive PageEvent where
  | navFail
  | navOk (detected : Nat) (elems : List ReviewElem)
  | excRaised
deriving Repr

/-- Oracle for one `scrape_reviews_for_product` call.  `login` is the
outcome of `_handle_login_for_reviews`: `some b` a normal return, `none`
an exception during login/navigation (caught by the outer handler).
`events` lists the driver's responses for successive iterations of the
pagination loop; an exhausted list behaves like a failed navigation. -/
structure ScrapeWorld where
  login : Option Bool
  page1 : List ReviewElem
  events : List PageEvent
deriving Repr

/-- `_scrape_reviews_from_pages` (lines 1105-1139): for `page` in
`2..max_pages`, stop on failed navigation; if the detected page number
regresses to 1, stop (lines 1119-1124); otherwise extract the page's
reviews into the accumulator and continue.  The source checks the loop
bound before consuming a driver event; the `excRaised`/`navFail`
equations elide that check because the result is the accumulator either
way. -/
def scrapeGo (hash : String → String) (maxPages : Nat) :
    Nat → List PageEvent → List ReviewRec → List String → List ReviewRec
  | _, [], acc, _ => acc
  | _, PageEvent.excRaised :: _, acc, _ => acc
  | _, PageEvent.navFail :: _, acc, _ => acc
  | page, PageEvent.navOk detected elems :: rest, acc, seen =>
    if maxPages < page then acc
    else if detected ≠ page ∧ detected = 1 then acc
    else
      let r := extractReviewsFromPage hash elems page seen
      scrapeGo hash maxPages (page + 1) rest (acc ++ r.1) r.2

/-- `scrape_reviews_for_product` (lines 1141-1171): initialise the session,
return the (empty) accumulator if login fails or raises, else extract
page 1 and run the pagination loop; every abnormal exit returns the
accumulated list. -/
def scrapeReviewsForProduct (hash : String → String) (w : ScrapeWorld)
    (maxPages : Nat) : List ReviewRec :=
  match w.login with
  | none => []
  | some false => []
  | some true =>
    let r1 := extractReviewsFromPage hash w.page1 1 []
    scrapeGo hash maxPages 2 w.events r1.1 r1.2

/-! ## Login State Machine (`amazon_auto_login.py`) -/

/-- Snapshot of the driver's observable page state as inspected by
`_is_login_page` / `_verify_login_success`: the raw URL, title and page
source (the code lowercases them at each use), plus whether the probe
`find_elements('div[data-hook="review"], div[data-hook="cr-review"]')`
returns a non-empty list (line 53). -/
structure PageState where
  url : String
  title : String
  source : String
  hasReviewElements : Bool
deriving Repr, DecidableEq

/-- `_is_login_page(driver)` (lines 44-70): if review elements are present
the page is immediately declared not a login page (lines 52-57); otherwise
any of the five login indicators (lines 60-66) classifies it as one. -/
def isLoginPage (st : PageState) : Bool :=
  if st.hasReviewElements then false
  else
    containsSub (lowerS st.url) "/ap/signin" ||
    containsSub (lowerS st.title) "sign in" ||
    containsSub (lowerS st.source) "signin" ||
    containsSub (lowerS st.title) "amazon sign-in" ||
    (containsSub (lowerS st.title) "login" && containsSub (lowerS st.title) "amazon")

/-- `_verify_login_success(driver, original_url)` (lines 178-202): success
iff any of the five indicators of lines 185-191 holds. -/
def verifyLoginSuccess (st : PageState) : Bool :=
  containsSub (lowerS st.url) "product-reviews" ||
  containsSub (lowerS st.url) "dp/" ||
  (containsSub (lowerS st.url) "product" && containsSub (lowerS st.title) "amazon") ||
  containsSub (lowerS st.title) "customer reviews" ||
  !(isLoginPage st)

/-- Oracle for one automatic login attempt: `autoOk` is the Boolean
returned by `_attempt_automatic_login` (field filling, submit clicks and
the optional 2FA step, all external to the page-state model), and `post`
is the page state on which `_verify_login_success` is then evaluated. -/
structure LoginAttempt where
  autoOk : Bool
  post : PageState
deriving Repr, DecidableEq

/-- Oracle for one `handle_login_automatically` call: the page state after
the initial navigation, the per-attempt outcomes (a world listing fewer
attempts than `max_retries` means the missing attempts fail), and the
page state after the operator's manual login and the re-navigation to the
original URL. -/
structure LoginWorld where
  initial : PageState
  attempts : List LoginAttempt
  manualPost : PageState
deriving Repr

/-- Result of the login handler, with a flag recording whether the manual
fallback (`_manual_login_fallback`, lines 280-305) was entered. -/
structure LoginResult where
  success : Bool
  manualUsed : Bool
deriving Repr, DecidableEq

/-- The retry loop of `handle_login_automatically` (lines 333-358): each
attempt succeeds iff `_attempt_automatic_login` returned `True` and
`_verify_login_success` confirms; on exhausting the retries the handler
falls back to `_manual_login_fallback`, which blocks on the operator,
re-navigates to the original URL and reports failure iff the page is still
classified as a login page (lines 300-305). -/
def loginLoop (manualPost : PageState) :
    Nat → List LoginAttempt → LoginResult
  | 0, _ => ⟨!(isLoginPage manualPost), true⟩
  | Nat.succ n, [] => loginLoop manualPost n []
  | Nat.succ n, o :: rest =>
    if o.autoOk && verifyLoginSuccess o.post then ⟨true, false⟩
    else loginLoop manualPost n rest

/-- `handle_login_automatically(driver, url)` (lines 307-358): after
navigating, return success immediately if the page is not a login page or
the (lowercased) URL contains `'dp/'` (line 326); otherwise run the
attempt loop with `max_retries` attempts. -/
def handleLoginAutomatically (w : LoginWorld) (maxRetries : Nat) : LoginResult :=
  if !(isLoginPage w.initial) || containsSub (lowerS w.initial.url) "dp/" then
    ⟨true, false⟩
  else loginLoop w.manualPost maxRetries w.attempts

/-! ## Search routing (`search_amazon_products`, lines 445-459) -/

/-- Python `str.isalnum()` (ASCII model): non-empty and every character a
letter or digit. -/
def pyIsAlnum (s : String) : Bool :=
  !s.data.isEmpty && s.data.all Char.isAlphanum

/-- Where `search_amazon_products` routes its input. -/
inductive SearchRoute where
  | asinLookup (url : String)
  | urlLookup (url : String)
  | keywordSearch
deriving Repr, DecidableEq

/-- The input dispatch of `search_amazon_products` (lines 451-462):
a 10-character alphanumeric input equal to its own uppercasing is treated
as an ASIN and looked up directly at `https://www.{domain}/dp/{keyword}`;
else an input starting with `http://`, `https://` or `www.{domain}` is
looked up as a URL; anything else becomes a keyword search. -/
def searchRoute (domain keyword : String) : SearchRoute :=
  if keyword.length = 10 ∧ pyIsAlnum keyword = true ∧ pyUpper keyword = keyword then
    SearchRoute.asinLookup ("https://www." ++ domain ++ "/dp/" ++ keyword)
  else if pyStartsWith keyword "http://" || pyStartsWith keyword "https://" ||
      pyStartsWith keyword ("www." ++ domain) then
    SearchRoute.urlLookup keyword
  else SearchRoute.keywordSearch

/-! ## Persisted output (`save_reviews_to_csv`, lines 1173-1212) -/

/-- The fixed column order requested at line 1182. -/
def csvColumnOrder : List String :=
  ["asin", "rating", "title", "text", "reviewer", "date", "page"]

/-- The keys actually present in every review dict reaching
`save_reviews_to_csv`: `extract_review_data` sets `rating`, `title`,
`text`, `reviewer` and `date` (lines 769-847) and
`extract_reviews_from_current_page` adds `page` (line 972); no code path
ever sets an `asin` key on a review dict, so the DataFrame's columns are
exactly these. -/
def reviewDictKeys : List String :=
  ["rating", "title", "text", "reviewer", "date", "page"]

/-- Line 1183: `[col for col in column_order if col in df.columns]`. -/
def csvExistingColumns : List String :=
  csvColumnOrder.filter (fun c => reviewDictKeys.contains c)

/-- `save_reviews_to_csv(reviews, ...)`: `None` when the review list is
empty (lines 1175-1177); otherwise the file is written with the filtered
column list and pandas encoding `'utf-8-sig'` — UTF-8 with a byte-order
mark (line 1196).  The model returns the (column list, encoding) pair that
determines the persisted layout. -/
def saveReviewsToCsv (reviews : List ReviewRec) : Option (List String × String) :=
  if reviews.isEmpty then none
  else some (csvExistingColumns, "utf-8-sig")

/-! ## Concrete driver oracles used by counterexamples and witnesses -/

/-- A review element whose id lookup succeeds but whose `data-review-id`
attribute is the empty string and whose `id` attribute is absent: the
selector `[data-review-id], [id*="review"]` matches any element carrying a
`data-review-id` attribute, Selenium yields `""` for the present-but-empty
attribute and `None` for the missing `id`, and `"" or None` is `None`. -/
def elemEmptyId : ReviewElem :=
  { ratingTexts := []
    titleTexts := ["Great vacuum"]
    bodyTexts := ["This vacuum works great and lasts a long time."]
    elemText := ""
    reviewerText := some "Alex"
    dateText := some "July 1, 2024"
    idSource := IdLookup.found (some "") none }

/-- A review element with no dedicated body container whose element text
is a single line of raw length 20 containing an interior whitespace run
(`"aaaa"`, twelve spaces, `"bbbb"`). -/
def elemRunText : ReviewElem :=
  { ratingTexts := []
    titleTexts := []
    bodyTexts := []
    elemText := "aaaa            bbbb"
    reviewerText := none
    dateText := none
    idSource := IdLookup.failed }

/-- An ordinary review element with a native review id, used by witnesses. -/
def elemNative (n : String) (body : String) : ReviewElem :=
  { ratingTexts := []
    titleTexts := ["Good value"]
    bodyTexts := [body]
    elemText := ""
    reviewerText := some "Sam"
    dateText := some "June 2, 2024"
    idSource := IdLookup.found (some n) none }

/-- A page state showing a login form (no review elements, signin URL). -/
def loginPageState : PageState :=
  { url := "https://www.amazon.com/ap/signin"
    title := "Amazon Sign-In"
    source := "signin form"
    hasReviewElements := false }

/-- A page state showing customer reviews. -/
def reviewsPageState : PageState :=
  { url := "https://www.amazon.com/product-reviews/B000TEST12/"
    title := "Amazon.com: Customer reviews"
    source := "reviews"
    hasReviewElements := true }

/-! ## Generic fold helpers -/

/-- A `foldl` preserves any invariant its step function preserves. -/
theorem foldl_inv {α β : Type _} (f : β → α → β) (P : β → Prop)
    (hf : ∀ b a, P b → P (f b a)) :
    ∀ (l : List α) (b : β), P b → P (l.foldl f b) := by
  intro l
  induction l with
  | nil => intro b hb; exact hb
  | cons a l ih => intro b hb; exact ih _ (hf b a hb)

/-- `processElem` only ever appends to the record accumulator, and its
decisions depend only on the seen set. -/
theorem processElem_acc (hash : String → String) (pageNum : Nat)
    (acc : List ReviewRec) (seen : List String) (e : ReviewElem) :
    processElem hash pageNum (acc, seen) e =
      (acc ++ (processElem hash pageNum ([], seen) e).1,
       (processElem hash pageNum ([], seen) e).2) := by
  simp only [processElem]
  split
  · simp
  · split
    · simp
    · simp

/-- Folding the element loop from an arbitrary accumulator equals folding
it from an empty accumulator and appending. -/
theorem foldl_processElem_acc (hash : String → String) (pageNum : Nat) :
    ∀ (es : List ReviewElem) (acc : List ReviewRec) (seen : List String),
      es.foldl (processElem hash pageNum) (acc, seen) =
        (acc ++ (es.foldl (processElem hash pageNum) ([], seen)).1,
         (es.foldl (processElem hash pageNum) ([], seen)).2) := by
  intro es
  induction es with
  | nil => intro acc seen; simp
  | cons e es ih =>
    intro acc seen
    simp only [List.foldl_cons]
    rw [processElem_acc hash pageNum acc seen e, ih]
    conv_rhs => rw [processElem_acc hash pageNum [] seen e, ih]
    simp

/-- One page of the session is a continuation of the same element fold. -/
theorem pageStep_eq (hash : String → String) (pageNum : Nat)
    (st : List ReviewRec × List String) (es : List ReviewElem) :
    (st.1 ++ (extractReviewsFromPage hash es pageNum st.2).1,
     (extractReviewsFromPage hash es pageNum st.2).2) =
      es.foldl (processElem hash pageNum) st := by
  unfold extractReviewsFromPage
  rw [foldl_processElem_acc hash pageNum es st.1 st.2]

/-- The whole session is a fold of the element loop over all pages. -/
theorem runExtraction_eq (hash : String → String)
    (pages : List (Nat × List ReviewElem)) :
    runExtraction hash pages =
      pages.foldl (fun st p => p.2.foldl (processElem hash p.1) st) ([], []) := by
  unfold runExtraction
  have hfun :
      (fun (st : List ReviewRec × List String) (p : Nat × List ReviewElem) =>
        (st.1 ++ (extractReviewsFromPage hash p.2 p.1 st.2).1,
         (extractReviewsFromPage hash p.2 p.1 st.2).2)) =
      (fun st p => p.2.foldl (processElem hash p.1) st) := by
    funext st p
    exact pageStep_eq hash p.1 st p.2
  rw [hfun]

/-- Any invariant preserved by the element-loop body holds of the whole
session's final state. -/
theorem runExtraction_inv (hash : String → String)
    (P : List ReviewRec × List String → Prop)
    (hP : P ([], []))
    (hstep : ∀ st pageNum e, P st → P (processElem hash pageNum st e))
    (pages : List (Nat × List ReviewElem)) :
    P (runExtraction hash pages) := by
  rw [runExtraction_eq]
  refine foldl_inv _ P ?_ pages ([], []) hP
  intro st p hst
  exact foldl_inv _ P (fun b a hb => hstep b p.1 a hb) p.2 st hst

/-! ## Claim C7 -/

/-- Claim C7: the login-page classifier never classifies a page containing
review content as a login page — whenever review elements are found,
`_is_login_page` returns `False` regardless of the URL, title and
page-source login indicators. -/
theorem login_classifier_review_override (st : PageState)
    (h : st.hasReviewElements = true) : isLoginPage st = false := by
  simp [isLoginPage, h]

/-- Witness for C7: a page whose URL, title and source all carry login
indicators but which shows review elements is still classified as not a
login page. -/
theorem login_classifier_review_override_witness :
    (PageState.mk "https://www.amazon.com/ap/signin" "Amazon Sign-In"
        "signin" true).hasReviewElements = true ∧
      isLoginPage (PageState.mk "https://www.amazon.com/ap/signin"
        "Amazon Sign-In" "signin" true) = false :=
  ⟨rfl, login_classifier_review_override _ rfl⟩

/-! ## Claim C8 -/

/-- Claim C8: `click_next_page_button` returns `False` (and raises no
exception — it is total, every driver error being caught by its handlers)
when no candidate is found, displayed and enabled, or when the first
qualifying candidate leaves the URL unchanged after the click; and it
returns `True` exactly when the post-click URL differs from the pre-click
URL. -/
theorem advance_requires_url_change (w : NavWorld) :
    (firstQualifying w.buttons = none → clickNextPageButton w = false) ∧
    (∀ b, firstQualifying w.buttons = some b →
      (clickNextPageButton w = true ↔ w.urlBefore ≠ b.urlAfter)) := by
  obtain ⟨u, bs⟩ := w
  simp only [clickNextPageButton]
  induction bs with
  | nil =>
    constructor
    · intro _; rfl
    · intro b hb; simp [firstQualifying] at hb
  | cons c rest ih =>
    by_cases hq : qualifies c = true
    · constructor
      · intro hnone
        simp [firstQualifying, hq] at hnone
      · intro b hb
        simp only [firstQualifying, hq, if_true] at hb
        cases hb
        simp only [clickNextGo, hq, if_true]
        by_cases heq : u = c.urlAfter
        · simp [heq]
        · simp [heq]
    · have hq' : qualifies c = false := by
        cases hcv : qualifies c
        · rfl
        · exact absurd hcv hq
      constructor
      · intro hnone
        simp only [firstQualifying, hq', Bool.false_eq_true, if_false] at hnone
        simp only [clickNextGo, hq', Bool.false_eq_true, if_false]
        exact ih.1 hnone
      · intro b hb
        simp only [firstQualifying, hq', Bool.false_eq_true, if_false] at hb
        simp only [clickNextGo, hq', Bool.false_eq_true, if_false]
        exact ih.2 b hb

/-- Witness for C8: a qualifying next-page candidate whose click leaves
the URL unchanged makes the operation report `False`. -/
theorem advance_requires_url_change_witness :
    (firstQualifying [NextButton.mk true true true "https://a/1"] =
      some (NextButton.mk true true true "https://a/1")) ∧
      (clickNextPageButton (NavWorld.mk "https://a/1"
          [NextButton.mk true true true "https://a/1"]) = true ↔
        ("https://a/1" : String) ≠ "https://a/1") :=
  ⟨by decide,
   (advance_requires_url_change
      (NavWorld.mk "https://a/1" [NextButton.mk true true true "https://a/1"])).2
     (NextButton.mk true true true "https://a/1") (by decide)⟩

/-! ## Claim C9 -/

/-- Counterexample for C9: on a non-empty review sequence the persisted
file's columns are `rating, title, text, reviewer, date, page` — the
`asin` column demanded by the claim is absent, because no review dict ever
receives an `asin` key. -/
theorem csv_columns_missing_asin_ce :
    saveReviewsToCsv
        [⟨⟨some 4, "Good", "This product is great and works fine", "Sam", "", ⟩, 1,
          some "R1TEST"⟩] =
      some (["rating", "title", "text", "reviewer", "date", "page"], "utf-8-sig") ∧
    (["rating", "title", "text", "reviewer", "date", "page"] : List String) ≠
      csvColumnOrder ∧
    "asin" ∉ (["rating", "title", "text", "reviewer", "date", "page"] : List String) := by
  refine ⟨by decide, by decide, by decide⟩

/-- Claim C9 (amended): for every non-empty review sequence the persisted
file has exactly the columns `rating, title, text, reviewer, date, page`
in that fixed order — the declared order restricted to the keys review
records actually carry, which never include `asin` — and is written with
pandas encoding `utf-8-sig`, i.e. UTF-8 with a byte-order mark. -/
theorem csv_layout_amended (reviews : List ReviewRec) (h : reviews ≠ []) :
    saveReviewsToCsv reviews =
      some (["rating", "title", "text", "reviewer", "date", "page"], "utf-8-sig") := by
  unfold saveReviewsToCsv
  rw [if_neg]
  · rfl
  · simp [h]

/-- Witness for C9: the amended layout at a concrete singleton sequence. -/
theorem csv_layout_amended_witness :
    ([(⟨⟨none, "", "An adequate product for the price point", "Amazon Customer", ""⟩,
        2, none⟩ : ReviewRec)] ≠ []) ∧
      saveReviewsToCsv
          [⟨⟨none, "", "An adequate product for the price point", "Amazon Customer", ""⟩,
            2, none⟩] =
        some (["rating", "title", "text", "reviewer", "date", "page"], "utf-8-sig") :=
  ⟨by decide, csv_layout_amended _ (by decide)⟩

/-! ## Evaluation helpers for the decimal parsers

`decide` cannot reduce `ℚ` arithmetic in the kernel, so concrete values
of the parsers are obtained by first evaluating the purely character-level
scan with `decide` and then computing the rational with `norm_num`. -/

/-- Evaluate `firstDecimal` from an evaluated scan. -/
theorem firstDecimal_eq_of_scan (s : String) (p : List Char × List Char)
    (h : scanDecimal s.data = some p) :
    firstDecimal s = some (decToRat p.1 p.2) := by
  unfold firstDecimal
  rw [h]
  rfl

/-- Evaluate `decToRat` from the evaluated digit values. -/
theorem decToRat_eq (ip fp : List Char) (a b n : Nat) (q : ℚ)
    (ha : digitsToNat ip = a) (hb : digitsToNat fp = b) (hn : fp.length = n)
    (hq : (a : ℚ) + (b : ℚ) / (10 : ℚ) ^ n = q) :
    decToRat ip fp = q := by
  unfold decToRat
  rw [ha, hb, hn, hq]

/-- The accepting first step of `_extract_product_rating`. -/
theorem extractProductRating_cons_accept (t : String) (rest : List String)
    (v : ℚ) (ht : t.isEmpty = false) (hv : firstDecimal t = some v)
    (hr : 1 ≤ v ∧ v ≤ 5) :
    extractProductRating (t :: rest) = some v := by
  simp [extractProductRating, ht, hv, hr]

/-- The accepting first step of the review-level rating loop. -/
theorem extractReviewRating_cons_accept (t : String) (rest : List String)
    (v : ℚ) (ht : (pyStrip t).isEmpty = false)
    (hv : firstDecimal (pyStrip t) = some v) :
    extractReviewRating (t :: rest) = some v := by
  simp [extractReviewRating, ht, hv]

/-- The `K` branch of `_extract_product_reviews_count` truncates. -/
theorem parseReviewCount_K (s : String) (p : List Char × List Char)
    (hs : s.isEmpty = false) (hK : containsUpper (stripSeps s) 'K' = true)
    (hscan : scanDecimal (stripSeps s).data = some p) :
    parseReviewCount s = some (⌊(decToRat p.1 p.2 * 1000 : ℚ)⌋.toNat) := by
  simp [parseReviewCount, hs, hK, hscan]

/-- The `M` branch of `_extract_product_reviews_count` truncates. -/
theorem parseReviewCount_M (s : String) (p : List Char × List Char)
    (hs : s.isEmpty = false) (hK : containsUpper (stripSeps s) 'K' = false)
    (hM : containsUpper (stripSeps s) 'M' = true)
    (hscan : scanDecimal (stripSeps s).data = some p) :
    parseReviewCount s = some (⌊(decToRat p.1 p.2 * 1000000 : ℚ)⌋.toNat) := by
  simp [parseReviewCount, hs, hK, hM, hscan]

/-! ## Claim C1 -/

/-- The product-level extractor only ever stores ratings in `[1, 5]`. -/
theorem extractProductRating_range :
    ∀ (cands : List String) (v : ℚ),
      extractProductRating cands = some v → 1 ≤ v ∧ v ≤ 5 := by
  intro cands
  induction cands with
  | nil => intro v h; simp [extractProductRating] at h
  | cons t rest ih =>
    intro v h
    unfold extractProductRating at h
    split at h
    · exact ih v h
    · split at h
      · split at h
        · cases h
          assumption
        · exact ih v h
      · exact ih v h

/-- The review-level extractor stores the first decimal number of one of
its candidate texts, whatever its value. -/
theorem extractReviewRating_mem :
    ∀ (cands : List String) (v : ℚ),
      extractReviewRating cands = some v →
        ∃ t ∈ cands, firstDecimal (pyStrip t) = some v := by
  intro cands
  induction cands with
  | nil => intro v h; simp [extractReviewRating] at h
  | cons t rest ih =>
    intro v h
    unfold extractReviewRating at h
    split at h
    · obtain ⟨u, hu, hv⟩ := ih v h
      exact ⟨u, List.mem_cons_of_mem _ hu, hv⟩
    · split at h
      case _ q hfd =>
        cases h
        exact ⟨t, List.mem_cons_self _ _, hfd⟩
      case _ =>
        obtain ⟨u, hu, hv⟩ := ih v h
        exact ⟨u, List.mem_cons_of_mem _ hu, hv⟩

/-- Counterexample for C1: review-level rating extraction performs no
range validation — a candidate text whose first decimal number is `10.0`
is accepted and stored as the rating `10`, outside `[1.0, 5.0]`. -/
theorem review_rating_unvalidated_ce :
    extractReviewRating ["10.0 out of 5 stars"] = some 10 ∧
    ¬ ((10 : ℚ) ≤ 5) := by
  constructor
  · have hscan : scanDecimal (pyStrip "10.0 out of 5 stars").data =
        some (['1', '0'], ['0']) := by decide
    have hv := firstDecimal_eq_of_scan (pyStrip "10.0 out of 5 stars")
      (['1', '0'], ['0']) hscan
    rw [decToRat_eq ['1', '0'] ['0'] 10 0 1 10 (by decide) (by decide)
      (by decide) (by norm_num)] at hv
    exact extractReviewRating_cons_accept _ _ _ (by decide) hv
  · norm_num

/-- Claim C1 (amended): product-level rating extraction
(`_extract_product_rating`) only stores values in the closed range
`[1.0, 5.0]` and never accepts a candidate whose first decimal number is
out of range; review-level rating extraction (`extract_review_data`)
stores the first decimal number of the first numeric candidate text with
no range validation, so out-of-range review ratings can be stored. -/
theorem rating_extraction_plausibility (cands : List String) (v : ℚ) :
    (extractProductRating cands = some v → 1 ≤ v ∧ v ≤ 5) ∧
    (extractReviewRating cands = some v →
      ∃ t ∈ cands, firstDecimal (pyStrip t) = some v) :=
  ⟨extractProductRating_range cands v, extractReviewRating_mem cands v⟩

/-- Witness for C1: the product extractor accepts `4.5` from a standard
star label, and the review extractor reads its value off a candidate. -/
theorem rating_extraction_plausibility_witness :
    (1 ≤ (9 / 2 : ℚ) ∧ (9 / 2 : ℚ) ≤ 5) ∧
      ∃ t ∈ ["4.5 out of 5 stars"], firstDecimal (pyStrip t) = some (9 / 2 : ℚ) := by
  have hv : firstDecimal "4.5 out of 5 stars" =
      some (decToRat (['4'], ['5']).1 (['4'], ['5']).2) :=
    firstDecimal_eq_of_scan "4.5 out of 5 stars" (['4'], ['5']) (by decide)
  rw [decToRat_eq ['4'] ['5'] 4 5 1 (9 / 2) (by decide) (by decide) (by decide)
    (by norm_num)] at hv
  have hps : pyStrip "4.5 out of 5 stars" = "4.5 out of 5 stars" := by decide
  have hprod : extractProductRating ["4.5 out of 5 stars"] = some (9 / 2 : ℚ) :=
    extractProductRating_cons_accept _ _ _ (by decide) hv (by norm_num)
  have hrev : extractReviewRating ["4.5 out of 5 stars"] = some (9 / 2 : ℚ) :=
    extractReviewRating_cons_accept _ _ _ (by decide) (by rw [hps]; exact hv)
  exact ⟨(rating_extraction_plausibility ["4.5 out of 5 stars"] (9 / 2)).1 hprod,
    (rating_extraction_plausibility ["4.5 out of 5 stars"] (9 / 2)).2 hrev⟩

/-! ## Claim C2 -/

/-- Counterexample for C2: `"1.0006K"` has leading decimal number
`1.0006 = 5003/5000` and a trailing `K`, and `1.0006 × 1000 = 1000.6`, so
the claimed `round` semantics demands `1001`; the code's `int()`
truncation produces `1000`. -/
theorem review_count_rounding_ce :
    parseReviewCount "1.0006K" = some 1000 ∧
    firstDecimal "1.0006K" = some (5003 / 5000 : ℚ) ∧
    round ((5003 / 5000 : ℚ) * 1000) = 1001 ∧
    (1000 : ℤ) ≠ 1001 := by
  have hd : decToRat ['1'] ['0', '0', '0', '6'] = 5003 / 5000 :=
    decToRat_eq ['1'] ['0', '0', '0', '6'] 1 6 4 (5003 / 5000) (by decide)
      (by decide) (by decide) (by norm_num)
  refine ⟨?_, ?_, ?_, by decide⟩
  · rw [parseReviewCount_K "1.0006K" (['1'], ['0', '0', '0', '6']) (by decide)
      (by decide) (by decide)]
    rw [show decToRat (['1'], ['0', '0', '0', '6']).1
        (['1'], ['0', '0', '0', '6']).2 = 5003 / 5000 from hd]
    norm_num
    decide
  · rw [firstDecimal_eq_of_scan "1.0006K" (['1'], ['0', '0', '0', '6'])
      (by decide)]
    rw [show decToRat (['1'], ['0', '0', '0', '6']).1
        (['1'], ['0', '0', '0', '6']).2 = 5003 / 5000 from hd]
  · norm_num [round_eq]

/-- Claim C2 (amended): for review-count strings containing `K`/`k`
(resp. `M`/`m` and no `K`) after comma/space removal — in particular every
string with a trailing `K` (resp. `M`) — the parsed count is the leading
decimal number times 1000 (resp. 1,000,000) *truncated* toward zero
(`int(...)`), which agrees with rounding only when the scaled fractional
part is below one half; `"3.9K"` still parses to `3900` and `"2M"` to
`2000000`. -/
theorem review_count_km_truncation :
    (∀ (s : String) (p : List Char × List Char), s.isEmpty = false →
      containsUpper (stripSeps s) 'K' = true →
      scanDecimal (stripSeps s).data = some p →
      parseReviewCount s = some (⌊(decToRat p.1 p.2 * 1000 : ℚ)⌋.toNat)) ∧
    (∀ (s : String) (p : List Char × List Char), s.isEmpty = false →
      containsUpper (stripSeps s) 'K' = false →
      containsUpper (stripSeps s) 'M' = true →
      scanDecimal (stripSeps s).data = some p →
      parseReviewCount s = some (⌊(decToRat p.1 p.2 * 1000000 : ℚ)⌋.toNat)) ∧
    parseReviewCount "3.9K" = some 3900 ∧
    parseReviewCount "2M" = some 2000000 := by
  refine ⟨parseReviewCount_K, parseReviewCount_M, ?_, ?_⟩
  · rw [parseReviewCount_K "3.9K" (['3'], ['9']) (by decide) (by decide)
      (by decide)]
    rw [decToRat_eq ['3'] ['9'] 3 9 1 (39 / 10) (by decide) (by decide)
      (by decide) (by norm_num)]
    norm_num
    decide
  · rw [parseReviewCount_M "2M" (['2'], []) (by decide) (by decide) (by decide)
      (by decide)]
    rw [decToRat_eq ['2'] [] 2 0 0 2 (by decide) (by decide) (by decide)
      (by norm_num)]
    norm_num
    decide

/-- Witness for C2: the `K` branch applied to `"3.9K"`. -/
theorem review_count_km_truncation_witness :
    parseReviewCount "3.9K" =
      some (⌊(decToRat ['3'] ['9'] * 1000 : ℚ)⌋.toNat) :=
  review_count_km_truncation.1 "3.9K" (['3'], ['9']) (by decide) (by decide)
    (by decide)
/-! ## Claim C4 -/

/-- The element loop only appends records whose stripped text passed the
line-949 guard. -/
theorem processElem_text_inv (hash : String → String) (pageNum : Nat)
    (st : List ReviewRec × List String) (e : ReviewElem)
    (h : ∀ r ∈ st.1, (pyStrip r.data.text).isEmpty = false ∧
      20 ≤ (pyStrip r.data.text).length) :
    ∀ r ∈ (processElem hash pageNum st e).1,
      (pyStrip r.data.text).isEmpty = false ∧
        20 ≤ (pyStrip r.data.text).length := by
  simp only [processElem]
  split
  · exact h
  · split
    · exact h
    · rename_i hfilter hguard
      intro r hr
      rw [List.mem_append] at hr
      rcases hr with hr | hr
      · exact h r hr
      · rw [List.mem_singleton] at hr
        subst hr
        push_neg at hfilter
        refine ⟨?_, ?_⟩
        · have h1 : (pyStrip (extractReviewData e).text).isEmpty = false := by
            cases hb : (pyStrip (extractReviewData e).text).isEmpty
            · rfl
            · exact absurd hb hfilter.1
          simpa using h1
        · simpa using hfilter.2

/-- Counterexample for C4: an element with no body container whose text is
the single line `"aaaa"` + 12 spaces + `"bbbb"` (raw length 20) is
retained, yet its whitespace-normalized text is `"aaaa bbbb"`, of length
9 < 20 — the fallback longest-line path never collapses whitespace, so
the claimed exclusion of sub-20-character normalized bodies fails. -/
theorem retained_text_norm_length_ce :
    (runExtraction (fun s => s) [(1, [elemRunText])]).1.map
        (fun r => r.data.text) = ["aaaa            bbbb"] ∧
    normWs "aaaa            bbbb" = "aaaa bbbb" ∧
    (normWs "aaaa            bbbb").length = 9 ∧ ¬ (20 ≤ 9) := by
  refine ⟨by decide, by decide, by decide, by decide⟩

/-- Claim C4 (amended): every review record in the final accumulated
sequence has a text that is non-empty and at least 20 characters long in
raw length after stripping (the guard of line 949); texts taken from a
dedicated body container are stored whitespace-collapsed, but the
longest-line fallback is not, so the *normalized* length of a retained
text can be below 20. -/
theorem retained_text_raw_length (hash : String → String)
    (pages : List (Nat × List ReviewElem)) :
    ∀ r ∈ (runExtraction hash pages).1,
      (pyStrip r.data.text).isEmpty = false ∧
        20 ≤ (pyStrip r.data.text).length :=
  runExtraction_inv hash
    (fun st => ∀ r ∈ st.1, (pyStrip r.data.text).isEmpty = false ∧
      20 ≤ (pyStrip r.data.text).length)
    (by intro r hr; simp at hr)
    (fun st pn e hst => processElem_text_inv hash pn st e hst)
    pages

/-- Witness for C4: a concrete retained record has a stripped text of
length at least 20. -/
theorem retained_text_raw_length_witness :
    (pyStrip (ReviewRec.mk
        (ReviewData.mk none "Good value"
          "This machine exceeded all of my expectations." "Sam" "June 2, 2024")
        1 (some "R1")).data.text).isEmpty = false ∧
      20 ≤ (pyStrip (ReviewRec.mk
        (ReviewData.mk none "Good value"
          "This machine exceeded all of my expectations." "Sam" "June 2, 2024")
        1 (some "R1")).data.text).length :=
  retained_text_raw_length (fun s => s)
    [(1, [elemNative "R1" "This machine exceeded all of my expectations."])]
    _ (by decide)

/-! ## Claim C3 -/

/-- `truthyIds` distributes over append. -/
theorem truthyIds_append (l1 l2 : List ReviewRec) :
    truthyIds (l1 ++ l2) = truthyIds l1 ++ truthyIds l2 := by
  unfold truthyIds
  rw [List.filterMap_append, List.filter_append]

/-- The element loop preserves the dedup invariant: the truthy identities
of the retained records are distinct and all recorded in the seen set. -/
theorem processElem_dedup_inv (hash : String → String) (pageNum : Nat)
    (st : List ReviewRec × List String) (e : ReviewElem)
    (h : (truthyIds st.1).Nodup ∧ ∀ s ∈ truthyIds st.1, s ∈ st.2) :
    ((truthyIds (processElem hash pageNum st e).1).Nodup ∧
      ∀ s ∈ truthyIds (processElem hash pageNum st e).1,
        s ∈ (processElem hash pageNum st e).2) := by
  simp only [processElem]
  split
  · exact h
  · split
    · exact h
    · rename_i hguard
      cases hrid : reviewIdOf hash e (extractReviewData e) with
      | none =>
        rw [truthyIds_append]
        have hsingle : truthyIds [⟨extractReviewData e, pageNum, none⟩] = [] := by
          simp [truthyIds]
        rw [hsingle]
        simp only [pyTruthy, List.append_nil, Bool.false_eq_true, if_false]
        exact h
      | some s =>
        rw [hrid] at hguard
        rw [truthyIds_append]
        cases hs : s.isEmpty
        · -- truthy id: the guard guarantees it is fresh
          have hsingle :
              truthyIds [⟨extractReviewData e, pageNum, some s⟩] = [s] := by
            simp [truthyIds, hs]
          rw [hsingle]
          have htr : pyTruthy (some s) = true := by simp [pyTruthy, hs]
          have hcontains : st.2.contains s = false := by
            cases hc : st.2.contains s
            · rfl
            · exact absurd ⟨htr, by simpa using hc⟩ hguard
          have hnotmem : s ∉ st.2 := by
            simpa [List.contains] using hcontains
          have hnotold : s ∉ truthyIds st.1 := fun hmem => hnotmem (h.2 s hmem)
          constructor
          · rw [List.nodup_append]
            refine ⟨h.1, List.nodup_singleton s, ?_⟩
            intro x hx hx'
            rw [List.mem_singleton] at hx'
            subst hx'
            exact hnotold hx
          · intro x hx
            simp only [htr, if_true]
            rw [List.mem_append, List.mem_singleton] at hx
            rcases hx with hx | rfl
            · exact List.mem_cons_of_mem _ (h.2 x hx)
            · exact List.mem_cons_self _ _
        · -- falsy id (empty string): not tracked, nothing to dedup
          have hsingle :
              truthyIds [⟨extractReviewData e, pageNum, some s⟩] = [] := by
            simp [truthyIds, hs]
          rw [hsingle]
          have htr : pyTruthy (some s) = false := by simp [pyTruthy, hs]
          simp only [htr, List.append_nil, Bool.false_eq_true, if_false]
          exact h

/-- Counterexample for C3: a review element whose id lookup succeeds with
an empty `data-review-id` and no `id` gets the falsy identity `None`; the
dedup guard `if review_id and ...` is then skipped, so feeding the very
same raw review content twice retains two records (both without identity),
violating the claimed session-wide uniqueness. -/
theorem dedup_falsy_identity_ce :
    (runExtraction (fun s => s) [(1, [elemEmptyId, elemEmptyId])]).1.length = 2 ∧
    (runExtraction (fun s => s) [(1, [elemEmptyId, elemEmptyId])]).1.map
        ReviewRec.rid = [none, none] := by
  refine ⟨by decide, by decide⟩

/-- Claim C3 (amended): within one scrape session the *truthy* identity
keys (a non-empty native id, or the hash fingerprint used when the id
lookup raises) of the retained records are pairwise distinct, because each
truthy identity is checked against the session-wide seen set before
insertion; a record whose id lookup succeeds but yields an empty/absent
attribute value is appended without deduplication. -/
theorem dedup_truthy_identities_nodup (hash : String → String)
    (pages : List (Nat × List ReviewElem)) :
    (truthyIds (runExtraction hash pages).1).Nodup :=
  (runExtraction_inv hash
    (fun st => (truthyIds st.1).Nodup ∧ ∀ s ∈ truthyIds st.1, s ∈ st.2)
    ⟨by simp [truthyIds], by simp [truthyIds]⟩
    (fun st pn e hst => processElem_dedup_inv hash pn st e hst) pages).1

/-! ## Claim C5 -/

/-- The pagination loop never discards what has been accumulated: its
result always extends the accumulator it was given. -/
theorem scrapeGo_extends (hash : String → String) (maxPages : Nat) :
    ∀ (evs : List PageEvent) (page : Nat) (acc : List ReviewRec)
      (seen : List String),
      ∃ tail, scrapeGo hash maxPages page evs acc seen = acc ++ tail := by
  intro evs
  induction evs with
  | nil =>
    intro page acc seen
    exact ⟨[], by simp [scrapeGo]⟩
  | cons ev rest ih =>
    intro page acc seen
    cases ev with
    | excRaised => exact ⟨[], by simp [scrapeGo]⟩
    | navFail => exact ⟨[], by simp [scrapeGo]⟩
    | navOk detected elems =>
      unfold scrapeGo
      by_cases hp : maxPages < page
      · rw [if_pos hp]
        exact ⟨[], by simp⟩
      · rw [if_neg hp]
        by_cases hd : detected ≠ page ∧ detected = 1
        · rw [if_pos hd]
          exact ⟨[], by simp⟩
        · rw [if_neg hd]
          obtain ⟨t, ht⟩ := ih (page + 1)
            (acc ++ (extractReviewsFromPage hash elems page seen).1)
            (extractReviewsFromPage hash elems page seen).2
          exact ⟨(extractReviewsFromPage hash elems page seen).1 ++ t,
            by rw [ht, List.append_assoc]⟩

/-- Claim C5: the orchestrator always returns the accumulated sequence —
on a failed (or crashed) login it returns the empty accumulation, the
pagination loop only ever appends to what was collected so far, a
mid-scrape exception or failed navigation returns the accumulator as it
stands, and the final result always extends the page-1 records; partial
results are never discarded. -/
theorem orchestrator_partial_results :
    (∀ (hash : String → String) (w : ScrapeWorld) (maxPages : Nat),
      w.login ≠ some true → scrapeReviewsForProduct hash w maxPages = []) ∧
    (∀ (hash : String → String) (maxPages page : Nat) (evs : List PageEvent)
      (acc : List ReviewRec) (seen : List String),
      ∃ tail, scrapeGo hash maxPages page evs acc seen = acc ++ tail) ∧
    (∀ (hash : String → String) (w : ScrapeWorld) (maxPages : Nat),
      w.login = some true → ∃ tail,
        scrapeReviewsForProduct hash w maxPages =
          (extractReviewsFromPage hash w.page1 1 []).1 ++ tail) ∧
    (∀ (hash : String → String) (maxPages page : Nat) (evs : List PageEvent)
      (acc : List ReviewRec) (seen : List String),
      scrapeGo hash maxPages page (PageEvent.excRaised :: evs) acc seen = acc) ∧
    (∀ (hash : String → String) (maxPages page : Nat) (evs : List PageEvent)
      (acc : List ReviewRec) (seen : List String),
      scrapeGo hash maxPages page (PageEvent.navFail :: evs) acc seen = acc) := by
  refine ⟨?_, fun hash maxPages page evs acc seen =>
      scrapeGo_extends hash maxPages evs page acc seen, ?_, ?_, ?_⟩
  · intro hash w maxPages hw
    unfold scrapeReviewsForProduct
    cases hl : w.login with
    | none => rfl
    | some b =>
      cases b
      · rfl
      · exact absurd hl hw
  · intro hash w maxPages hw
    unfold scrapeReviewsForProduct
    rw [hw]
    exact scrapeGo_extends hash maxPages w.events 2
      (extractReviewsFromPage hash w.page1 1 []).1
      (extractReviewsFromPage hash w.page1 1 []).2
  · intro hash maxPages page evs acc seen
    rfl
  · intro hash maxPages page evs acc seen
    rfl

/-- Witness for C5: a login failure returns the empty sequence, and an
exception in the first loop iteration returns the records accumulated
before it. -/
theorem orchestrator_partial_results_witness :
    scrapeReviewsForProduct (fun s => s)
        (ScrapeWorld.mk (some false) [elemEmptyId] []) 5 = [] ∧
      ∃ tail, scrapeReviewsForProduct (fun s => s)
          (ScrapeWorld.mk (some true) [] [PageEvent.excRaised]) 5 =
        (extractReviewsFromPage (fun s => s) [] 1 []).1 ++ tail :=
  ⟨orchestrator_partial_results.1 (fun s => s)
      (ScrapeWorld.mk (some false) [elemEmptyId] []) 5 (by simp),
   (orchestrator_partial_results.2.2.1 (fun s => s)
      (ScrapeWorld.mk (some true) [] [PageEvent.excRaised]) 5 rfl)⟩

/-! ## Claim C6 -/

/-- If every attempt the world offers fails, the retry loop always falls
through to the manual fallback, whose verdict is the final re-check of
`_is_login_page`. -/
theorem loginLoop_all_fail (manualPost : PageState) :
    ∀ (n : Nat) (outs : List LoginAttempt),
      (∀ o ∈ outs, (o.autoOk && verifyLoginSuccess o.post) = false) →
      loginLoop manualPost n outs =
        ⟨!(isLoginPage manualPost), true⟩ := by
  intro n
  induction n with
  | zero => intro outs _; rfl
  | succ n ih =>
    intro outs h
    cases outs with
    | nil => exact ih [] (by intro o ho; cases ho)
    | cons o rest =>
      have ho := h o (List.mem_cons_self _ _)
      simp only [loginLoop, ho, Bool.false_eq_true, if_false]
      exact ih rest (fun o2 ho2 => h o2 (List.mem_cons_of_mem _ ho2))

/-- Claim C6: when the initial page is a login page (and the URL lacks
`dp/`) and every automatic attempt fails verification, the handler enters
the manual fallback instead of failing outright, and it reports login
failure if and only if, after the operator's signal and the re-navigation
to the original URL, the page is still classified as a login page. -/
theorem login_manual_fallback_behavior (w : LoginWorld) (maxRetries : Nat)
    (hlogin : isLoginPage w.initial = true)
    (hdp : containsSub (lowerS w.initial.url) "dp/" = false)
    (hfail : ∀ o ∈ w.attempts, (o.autoOk && verifyLoginSuccess o.post) = false) :
    (handleLoginAutomatically w maxRetries).manualUsed = true ∧
    ((handleLoginAutomatically w maxRetries).success = false ↔
      isLoginPage w.manualPost = true) := by
  unfold handleLoginAutomatically
  rw [hlogin, hdp]
  simp only [Bool.not_true, Bool.or_false, Bool.false_eq_true, if_false]
  rw [loginLoop_all_fail w.manualPost maxRetries w.attempts hfail]
  refine ⟨rfl, ?_⟩
  constructor
  · intro hs
    cases hl : isLoginPage w.manualPost
    · rw [hl] at hs
      cases hs
    · rfl
  · intro hl
    rw [hl]
    rfl

/-- Witness for C6: a world in which both automatic attempts fail on a
login page and the operator's manual login lands on a reviews page makes
the handler use the manual fallback and report success. -/
theorem login_manual_fallback_behavior_witness :
    isLoginPage loginPageState = true ∧
    containsSub (lowerS loginPageState.url) "dp/" = false ∧
    (∀ o ∈ [LoginAttempt.mk false loginPageState,
        LoginAttempt.mk false loginPageState],
      (o.autoOk && verifyLoginSuccess o.post) = false) ∧
    ((handleLoginAutomatically
        (LoginWorld.mk loginPageState
          [LoginAttempt.mk false loginPageState,
            LoginAttempt.mk false loginPageState]
          reviewsPageState) 2).manualUsed = true ∧
      ((handleLoginAutomatically
          (LoginWorld.mk loginPageState
            [LoginAttempt.mk false loginPageState,
              LoginAttempt.mk false loginPageState]
            reviewsPageState) 2).success = false ↔
        isLoginPage reviewsPageState = true)) :=
  ⟨by decide, by decide, by decide,
   login_manual_fallback_behavior
     (LoginWorld.mk loginPageState
        [LoginAttempt.mk false loginPageState,
          LoginAttempt.mk false loginPageState]
        reviewsPageState) 2 (by decide) (by decide) (by decide)⟩

/-! ## Claim C10

Bridging lemmas between Python `str.upper() == s` (the code's test) and
"contains no lowercase letter" (the claim's phrasing). -/

/-- For every code point below 123 that is at least 97 (the ASCII
lowercase letters), uppercasing changes the character. -/
theorem ofNat_toUpper_ne :
    ∀ k, k < 123 → 97 ≤ k → (Char.ofNat k).toUpper ≠ Char.ofNat k := by
  decide

/-- `UInt32` order reflects the order of the underlying naturals. -/
theorem uint32_le_iff {a b : UInt32} : a ≤ b ↔ a.toNat ≤ b.toNat := by
  simp [UInt32.le_def, BitVec.le_def, UInt32.toNat]

/-- `Char.isLower` in terms of the code point. -/
theorem isLower_iff_toNat (c : Char) :
    c.isLower = true ↔ 97 ≤ c.toNat ∧ c.toNat ≤ 122 := by
  simp only [Char.isLower, Bool.and_eq_true, decide_eq_true_eq, ge_iff_le]
  rw [uint32_le_iff, uint32_le_iff]
  constructor
  · rintro ⟨h1, h2⟩
    exact ⟨h1, h2⟩
  · rintro ⟨h1, h2⟩
    exact ⟨h1, h2⟩

/-- Uppercasing fixes every non-lowercase character. -/
theorem toUpper_eq_self_of_not_lower {c : Char} (h : c.isLower = false) :
    c.toUpper = c := by
  have hn : ¬(97 ≤ c.toNat ∧ c.toNat ≤ 122) := by
    rw [← isLower_iff_toNat, h]
    simp
  unfold Char.toUpper
  rw [if_neg hn]

/-- Uppercasing moves every lowercase character. -/
theorem toUpper_ne_self_of_lower {c : Char} (h : c.isLower = true) :
    c.toUpper ≠ c := by
  obtain ⟨h1, h2⟩ := (isLower_iff_toNat c).mp h
  have hc : Char.ofNat c.toNat = c := Char.ofNat_toNat c
  have := ofNat_toUpper_ne c.toNat (by omega) h1
  rwa [hc] at this

/-- A character is fixed by uppercasing iff it is not lowercase. -/
theorem toUpper_eq_self_iff (c : Char) : c.toUpper = c ↔ c.isLower = false := by
  constructor
  · intro h
    cases hl : c.isLower
    · rfl
    · exact absurd h (toUpper_ne_self_of_lower hl)
  · exact toUpper_eq_self_of_not_lower

/-- A character list is fixed by uppercasing iff it has no lowercase
letter. -/
theorem map_toUpper_eq_self_iff (l : List Char) :
    l.map Char.toUpper = l ↔ ∀ c ∈ l, c.isLower = false := by
  induction l with
  | nil => simp
  | cons c l ih =>
    simp only [List.map_cons, List.cons.injEq, List.mem_cons]
    constructor
    · rintro ⟨hc, hl⟩
      intro d hd
      rcases hd with rfl | hd
      · exact (toUpper_eq_self_iff d).mp hc
      · exact ih.mp hl d hd
    · intro h
      refine ⟨(toUpper_eq_self_iff c).mpr (h c (Or.inl rfl)), ?_⟩
      exact ih.mpr (fun d hd => h d (Or.inr hd))

/-- Python `s.upper() == s` iff `s` contains no lowercase letter. -/
theorem pyUpper_eq_self_iff (s : String) :
    pyUpper s = s ↔ ∀ c ∈ s.data, c.isLower = false := by
  unfold pyUpper
  constructor
  · intro h
    exact (map_toUpper_eq_self_iff s.data).mp (congrArg String.data h)
  · intro h
    exact congrArg String.mk ((map_toUpper_eq_self_iff s.data).mpr h)

/-- Claim C10: `search_amazon_products` routes its input to a direct
product lookup as an ASIN iff the input is exactly 10 characters,
alphanumeric, and contains no lowercase letter (`keyword.upper() ==
keyword`); a 10-character alphanumeric input containing a lowercase
letter, when it matches none of the URL prefixes, is instead treated as a
keyword search. -/
theorem asin_routing_characterization (domain keyword : String) :
    ((∃ u, searchRoute domain keyword = SearchRoute.asinLookup u) ↔
      keyword.length = 10 ∧ pyIsAlnum keyword = true ∧
        ∀ c ∈ keyword.data, c.isLower = false) ∧
    (keyword.length = 10 → pyIsAlnum keyword = true →
      (∃ c ∈ keyword.data, c.isLower = true) →
      pyStartsWith keyword "http://" = false →
      pyStartsWith keyword "https://" = false →
      pyStartsWith keyword ("www." ++ domain) = false →
      searchRoute domain keyword = SearchRoute.keywordSearch) := by
  constructor
  · constructor
    · rintro ⟨u, hu⟩
      unfold searchRoute at hu
      by_cases hC : keyword.length = 10 ∧ pyIsAlnum keyword = true ∧
          pyUpper keyword = keyword
      · exact ⟨hC.1, hC.2.1, (pyUpper_eq_self_iff keyword).mp hC.2.2⟩
      · rw [if_neg hC] at hu
        split at hu <;> simp at hu
    · rintro ⟨h10, halnum, hnl⟩
      have hup : pyUpper keyword = keyword := (pyUpper_eq_self_iff keyword).mpr hnl
      exact ⟨"https://www." ++ domain ++ "/dp/" ++ keyword,
        by unfold searchRoute; rw [if_pos ⟨h10, halnum, hup⟩]⟩
  · rintro h10 halnum ⟨c, hc, hcl⟩ h1 h2 h3
    have hne : pyUpper keyword ≠ keyword := by
      intro h
      have hfix := (pyUpper_eq_self_iff keyword).mp h c hc
      rw [hcl] at hfix
      cases hfix
    unfold searchRoute
    rw [if_neg (by rintro ⟨_, _, h⟩; exact hne h)]
    simp [h1, h2, h3]

/-- Witness for C10: a lowercase 10-character alphanumeric input becomes a
keyword search, and its uppercase form is routed as an ASIN. -/
theorem asin_routing_characterization_witness :
    searchRoute "amazon.com" "b08n5wrwnw" = SearchRoute.keywordSearch ∧
      ∃ u, searchRoute "amazon.com" "B08N5WRWNW" = SearchRoute.asinLookup u :=
  ⟨(asin_routing_characterization "amazon.com" "b08n5wrwnw").2 (by decide)
      (by decide) ⟨'b', by decide, by decide⟩ (by decide) (by decide)
      (by decide),
   (asin_routing_characterization "amazon.com" "B08N5WRWNW").1.mpr
     ⟨by decide, by decide, by decide⟩⟩

end AmazonScraper
